import Mathlib

/-!
Verification of the FocusFlow `advanced_security` module
(`backend/app/core/advanced_security.py`).

The module talks to Redis; we embed the slice of Redis it uses as an
association list of `(key, value, expiresAt)` entries, threaded through the
operations together with the current time `now` (seconds).  Writes via
`SETEX key ttl value` prepend an entry expiring at `now + ttl` (lookup takes
the first hit, so prepending realises last-write-wins); `GET` returns the
first entry for the key if it has not yet expired; `DEL` removes every entry
for the key.  The combined `INCR key; EXPIRE key window` pipeline of
`_increment_rate_limit_counter` becomes a single read-modify-write.

Library calls (Fernet encryption, pyotp verification, md5) are modelled as
explicit function parameters or opaque string stand-ins, as noted at each
definition; the security manager never inspects their output beyond equality
and key construction, so the claims do not depend on their internals.
-/

set_option maxHeartbeats 1000000

/-- A Redis-like keyed store: list of `(key, value, expiresAt)` entries,
newest write first. -/
abbrev KvStore (α : Type) : Type := List (String × α × Nat)

/-- The empty store. -/
def KvStore.empty {α : Type} : KvStore α := []

/-- Redis `GET` at time `now`: first entry for the key, if still alive
(a key lives while `now < expiresAt`). -/
def kvGet {α : Type} (st : KvStore α) (now : Nat) (k : String) : Option α :=
  match List.find? (fun e => e.1 == k) st with
  | some e => if now < e.2.2 then some e.2.1 else none
  | none => none

/-- Redis `SETEX key ttl value` at time `now`. -/
def kvSetex {α : Type} (st : KvStore α) (now : Nat) (k : String) (ttl : Nat) (v : α) :
    KvStore α :=
  (k, v, now + ttl) :: st

/-- Redis `DEL key`. -/
def kvDelete {α : Type} (st : KvStore α) (k : String) : KvStore α :=
  List.filter (fun e => !(e.1 == k)) st





/-- `SecurityLevel` enum of the source. -/
inductive SecurityLevel where
  | low
  | medium
  | high
  | critical
deriving DecidableEq

/-- `ThreatType` enum of the source. -/
inductive ThreatType where
  | brute_force
  | credential_stuffing
  | unusual_activity
  | data_exfiltration
  | api_abuse
deriving DecidableEq

/-- `SecurityEvent` pydantic model.  `timestamp` is seconds, `details` an
opaque key/value map, `geolocation` an optional opaque map. -/
structure SecurityEvent where
  event_id : String
  user_id : Option String
  event_type : ThreatType
  severity : SecurityLevel
  timestamp : Nat
  ip_address : String
  user_agent : String
  details : List (String × String)
  risk_score : ℚ
  geolocation : Option (List (String × String)) := none
deriving DecidableEq

/-- The two Redis lists the event pipeline writes: `security_events`
(newest first) and `security_alerts` (newest first). -/
structure EventLog where
  security_events : List SecurityEvent
  security_alerts : List SecurityEvent
deriving DecidableEq

/-- The empty event log. -/
def EventLog.empty : EventLog := ⟨[], []⟩

/-- `_trigger_security_alert`: `lpush` the alert payload (modelled by the
event itself) onto `security_alerts`. -/
def trigger_security_alert (log : EventLog) (e : SecurityEvent) : EventLog :=
  { log with security_alerts := e :: log.security_alerts }

/-- `_log_security_event`: `lpush` onto `security_events`, then
`ltrim security_events 0 10000` — Redis `LTRIM` keeps the index range
0..10000 inclusive, i.e. the 10001 newest entries.  High/critical events
additionally trigger an alert. -/
def log_security_event (log : EventLog) (e : SecurityEvent) : EventLog :=
  let log' := { log with security_events := List.take 10001 (e :: log.security_events) }
  if e.severity = SecurityLevel.high ∨ e.severity = SecurityLevel.critical then
    trigger_security_alert log' e
  else
    log'



/-- `self.rate_limits` dict lookup with the default of `_check_rate_limit`
and `_increment_rate_limit_counter`:
`self.rate_limits.get(action, dict(requests 100, window 3600))`.
Returns `(requests, window)`. -/
def rate_limits_get (action : String) : Nat × Nat :=
  if action = "login" then (5, 300)
  else if action = "api_call" then (1000, 3600)
  else if action = "ai_request" then (100, 3600)
  else if action = "password_reset" then (3, 3600)
  else if action = "mfa_attempt" then (10, 300)
  else (100, 3600)

/-- Whether `action` is an explicit key of the `self.rate_limits` dict
(`self.rate_limits[action]` raises `KeyError` exactly when this is false). -/
def rate_limits_member (action : String) : Bool :=
  action = "login" ∨ action = "api_call" ∨ action = "ai_request" ∨
    action = "password_reset" ∨ action = "mfa_attempt"



/-- `_check_rate_limit(key, action)`: allowed when the counter is absent
(or expired), otherwise when it is strictly below the action quota. -/
def check_rate_limit (st : KvStore Nat) (now : Nat) (key action : String) : Bool :=
  match kvGet st now key with
  | none => true
  | some current_count => current_count < (rate_limits_get action).1

/-- `_increment_rate_limit_counter(key, action)`: pipelined
`INCR key; EXPIRE key window` — the count becomes one more than the live
count (an absent or expired key restarts at 1) and the expiry is reset to
`now + window`. -/
def increment_rate_limit_counter (st : KvStore Nat) (now : Nat) (key action : String) :
    KvStore Nat :=
  kvSetex st now key (rate_limits_get action).2 ((kvGet st now key).getD 0 + 1)

/-- Modelled: `hashlib.md5(user_agent).hexdigest()`.  The digest is used only
as an opaque component of a Redis key, so we model it by an injective opaque
stand-in (the string itself). -/
def md5_hexdigest (s : String) : String := s

/-- The composite keys built by `advanced_rate_limiting` (the `None` entry
for a missing `user_id` is filtered out, keeping the source order
ip, user, user-agent-hash). -/
def rate_limit_keys (action ip : String) (user_id : Option String) (user_agent : String) :
    List String :=
  ["rate_limit:" ++ action ++ ":ip:" ++ ip]
    ++ (match user_id with
        | some u => ["rate_limit:" ++ action ++ ":user:" ++ u]
        | none => [])
    ++ ["rate_limit:" ++ action ++ ":ua:" ++ md5_hexdigest user_agent]

/-- Outcome of `advanced_rate_limiting`: normal return `allowed`, the
`HTTPException(429)` with its `retry_after` detail, or the Python `KeyError`
raised while evaluating `self.rate_limits[action]` inside the exception
detail when `action` has no explicit policy entry. -/
inductive RateLimitOutcome where
  | allowed
  | http429 (retry_after : Nat)
  | keyError
deriving DecidableEq

/-- `advanced_rate_limiting(request, user_id, action)`.  The source loops
over the keys, raising on the first key whose check fails (counters
untouched, one API-abuse event logged before the raise); when every check
passes it increments every counter and returns `True`.  Both phases are
rendered here: an all-keys check, then either the fold of increments or the
event plus the failure outcome.  `event_id` stands for the fresh
`secrets.token_hex(16)` and `ts` for `datetime.now`. -/
def advanced_rate_limiting (st : KvStore Nat) (log : EventLog) (now : Nat)
    (event_id : String) (ts : Nat) (ip user_agent : String) (user_id : Option String)
    (action : String) : RateLimitOutcome × KvStore Nat × EventLog :=
  let keys := rate_limit_keys action ip user_id user_agent
  if keys.all (fun k => check_rate_limit st now k action) then
    (RateLimitOutcome.allowed,
      keys.foldl (fun s k => increment_rate_limit_counter s now k action) st, log)
  else
    let log' := log_security_event log
      { event_id := event_id, user_id := user_id, event_type := ThreatType.api_abuse,
        severity := SecurityLevel.medium, timestamp := ts, ip_address := ip,
        user_agent := user_agent,
        details := [("action", action), ("rate_limit_exceeded", "True")],
        risk_score := 3 / 5, geolocation := none }
    if rate_limits_member action then
      (RateLimitOutcome.http429 (rate_limits_get action).2, st, log')
    else
      (RateLimitOutcome.keyError, st, log')

/-- One allow-and-record step on a single counter key, as performed per key
by the source paths (`_check_rate_limit` followed, on success, by
`_increment_rate_limit_counter`); this is the `allow`/`record` contract of
the spec. -/
def allow_and_record (st : KvStore Nat) (now : Nat) (key action : String) :
    Bool × KvStore Nat :=
  if check_rate_limit st now key action then
    (true, increment_rate_limit_counter st now key action)
  else
    (false, st)

/-- `n` successive allow-and-record calls at time `now` on one key; returns
the allow results in call order together with the final store. -/
def run_allow_record (n : Nat) (st : KvStore Nat) (now : Nat) (key action : String) :
    List Bool × KvStore Nat :=
  match n with
  | 0 => ([], st)
  | n + 1 =>
    let s := allow_and_record st now key action
    let r := run_allow_record n s.2 now key action
    (s.1 :: r.1, r.2)

/-- JWT claim set produced by `create_secure_jwt_token`.  The caller payload
is modelled by its `sub` claim (the only caller claim the spec and claims
mention); `exp` is optional because the source only sets it for the
`access` and `refresh` token types. -/
structure JwtPayload where
  sub : Option String := none
  iat : Nat := 0
  nbf : Nat := 0
  exp : Option Nat := none
  jti : Option String := none
  token_type : String := ""
deriving DecidableEq

/-- A signed token: the claim set plus the key it was signed with.
`jwt.decode` with secret `s` succeeds on signature exactly when the token
was signed with `s`. -/
structure Jwt where
  payload : JwtPayload
  key : String
deriving DecidableEq

/-- Failures of token validation, mirroring the `HTTPException` branches of
the source: expired signature, revoked (ledger entry absent), or any other
decode failure (bad signature / malformed). -/
inductive JwtFailure where
  | expired
  | revoked
  | invalid
deriving DecidableEq

/-- `jwt.decode(token, secret, ...)`: signature check, then the `exp` check
unless `verify_exp` is disabled (as in `revoke_jwt_token`).  A token with no
`exp` claim is not expiry-checked. -/
def jwt_decode (secret : String) (tok : Jwt) (now : Nat) (verify_exp : Bool) :
    Except JwtFailure JwtPayload :=
  if tok.key = secret then
    match tok.payload.exp with
    | some e => if verify_exp ∧ e < now then Except.error JwtFailure.expired
                else Except.ok tok.payload
    | none => Except.ok tok.payload
  else
    Except.error JwtFailure.invalid

/-- Value stored in the revocation ledger under `jwt:` ++ jti. -/
structure TokenRecord where
  user_id : Option String
  token_type : String
deriving DecidableEq

/-- `self.access_token_expire` (1 hour). -/
def access_token_expire : Nat := 3600

/-- `self.refresh_token_expire` (7 days). -/
def refresh_token_expire : Nat := 604800

/-- `create_secure_jwt_token(payload, token_type)`: stamps `iat = nbf = now`,
the fresh `jti` (passed in for `secrets.token_hex(16)`), the token type, and
`exp = now + TTL` for access/refresh types; signs with the manager secret and
writes the ledger entry `jwt:` ++ jti via `SETEX` (TTL `access_token_expire`
for access tokens, `refresh_token_expire` for every other type). -/
def create_secure_jwt_token (secret : String) (st : KvStore TokenRecord) (now : Nat)
    (payload_sub : Option String) (jti : String) (token_type : String) :
    Jwt × KvStore TokenRecord :=
  let exp : Option Nat :=
    if token_type = "access" then some (now + access_token_expire)
    else if token_type = "refresh" then some (now + refresh_token_expire)
    else none
  let p : JwtPayload :=
    { sub := payload_sub, iat := now, nbf := now, exp := exp, jti := some jti,
      token_type := token_type }
  let ttl := if token_type = "access" then access_token_expire else refresh_token_expire
  (⟨p, secret⟩,
    kvSetex st now ("jwt:" ++ jti) ttl { user_id := payload_sub, token_type := token_type })

/-- `validate_jwt_token(token)`: decode (signature + temporal claims), then,
only when the payload carries a `jti`, look the ledger up — an absent entry
raises the 401 "Token has been revoked".  A payload without `jti` skips the
ledger check. -/
def validate_jwt_token (secret : String) (st : KvStore TokenRecord) (tok : Jwt)
    (now : Nat) : Except JwtFailure JwtPayload :=
  match jwt_decode secret tok now true with
  | Except.error e => Except.error e
  | Except.ok payload =>
    match payload.jti with
    | some j =>
      match kvGet st now ("jwt:" ++ j) with
      | none => Except.error JwtFailure.revoked
      | some _ => Except.ok payload
    | none => Except.ok payload

/-- `revoke_jwt_token(token)`: decode ignoring expiry; on any decode failure
return `False`; with a `jti` delete the ledger entry and return `True`,
without one fall through to `False`. -/
def revoke_jwt_token (secret : String) (st : KvStore TokenRecord) (tok : Jwt)
    (now : Nat) : Bool × KvStore TokenRecord :=
  match jwt_decode secret tok now false with
  | Except.error _ => (false, st)
  | Except.ok payload =>
    match payload.jti with
    | some j => (true, kvDelete st ("jwt:" ++ j))
    | none => (false, st)

/-- The behavioural feature vector produced by `_extract_behavioral_features`
(exactly these six keys, in this order). -/
structure ThreatFeatures where
  hour_anomaly : ℚ
  new_location : ℚ
  new_device : ℚ
  api_call_frequency : ℚ
  data_access_volume : ℚ
  failed_auth_rate : ℚ
deriving DecidableEq

/-- `_calculate_risk_score(features)`: the weighted sum over the six feature
keys (weights 0.2, 0.3, 0.25, 0.15, 0.1, 0.4 — every extracted key has an
explicit weight, so the 0.1 dict default is never taken), clamped to [0, 1]
by `min(1.0, max(0.0, s))`.  The source dict key `failed_auth_ratio` is the
field `failed_auth_rate` here. -/
def calculate_risk_score (f : ThreatFeatures) : ℚ :=
  min 1 (max 0
    (f.hour_anomaly * (2 / 10) + f.new_location * (3 / 10) + f.new_device * (25 / 100)
      + f.api_call_frequency * (15 / 100) + f.data_access_volume * (1 / 10)
      + f.failed_auth_rate * (4 / 10)))

/-- `_determine_threat_level(risk_score)`. -/
def determine_threat_level (risk_score : ℚ) : SecurityLevel :=
  if 8 / 10 ≤ risk_score then SecurityLevel.critical
  else if 6 / 10 ≤ risk_score then SecurityLevel.high
  else if 3 / 10 ≤ risk_score then SecurityLevel.medium
  else SecurityLevel.low

/-- The response dict of `ai_powered_threat_detection`. -/
structure ThreatResponse where
  risk_score : ℚ
  threat_level : SecurityLevel
  recommended_actions : List String
  blocking_required : Bool
deriving DecidableEq

/-- `ai_powered_threat_detection(user_id, request, activity_data)` after
feature extraction: score, level, the if/elif on the level filling the
recommended actions and the blocking flag, and the event logged for
high/critical levels (its `details` carry the feature vector and activity
snapshot, modelled opaquely).  `event_id` stands for the fresh token and
`ts` for the wall clock. -/
def ai_powered_threat_detection (log : EventLog) (features : ThreatFeatures)
    (user_id ip user_agent event_id : String) (ts : Nat) :
    ThreatResponse × EventLog :=
  let risk_score := calculate_risk_score features
  let threat_level := determine_threat_level risk_score
  let ab : List String × Bool :=
    if threat_level = SecurityLevel.high then
      (["require_mfa", "additional_verification"], false)
    else if threat_level = SecurityLevel.critical then
      (["block_access", "alert_admin", "require_account_verification"], true)
    else
      ([], false)
  let response : ThreatResponse :=
    { risk_score := risk_score, threat_level := threat_level,
      recommended_actions := ab.1, blocking_required := ab.2 }
  let log' :=
    if threat_level = SecurityLevel.high ∨ threat_level = SecurityLevel.critical then
      log_security_event log
        { event_id := event_id, user_id := some user_id,
          event_type := ThreatType.unusual_activity, severity := threat_level,
          timestamp := ts, ip_address := ip, user_agent := user_agent,
          details := [("features", "feature_vector"), ("activity_data", "activity_snapshot")],
          risk_score := risk_score, geolocation := none }
    else log
  (response, log')

/-- `MFAMethod` enum of the source. -/
inductive MFAMethod where
  | totp
  | sms
  | email
  | hardware_key
deriving DecidableEq

/-- Result dict of `_setup_totp_mfa`. -/
structure TotpSetupResult where
  method : String
  secret : String
  qr_code_data : String
  setup_expires_in : Nat
  backup_codes : List String
deriving DecidableEq

/-- Modelled: `pyotp.TOTP(secret).provisioning_uri(name, issuer_name)` — an
opaque string embedding the deployment issuer. -/
def totp_provisioning_uri (secret name : String) : String :=
  "otpauth://totp/" ++ name ++ "?secret=" ++ secret ++ "&issuer=FocusFlow Enterprise"

/-- `_setup_totp_mfa(user_id)`: generate a secret (passed in for
`pyotp.random_base32()`), build the provisioning URI, encrypt the secret
(`encrypted_secret` stands for `self.fernet.encrypt(secret)`) and stage it
under `mfa_setup:` ++ user_id with a 300 second TTL; return the setup dict
(backup codes passed in for the `secrets.token_hex(4)` draws). -/
def setup_totp_mfa (st : KvStore String) (now : Nat) (user_id secret encrypted_secret : String)
    (backup_codes : List String) : KvStore String × TotpSetupResult :=
  (kvSetex st now ("mfa_setup:" ++ user_id) 300 encrypted_secret,
    { method := "totp", secret := secret,
      qr_code_data := totp_provisioning_uri secret user_id,
      setup_expires_in := 300, backup_codes := backup_codes })

/-- `_validate_totp_token(user_id, token)`: read the active secret under
`mfa_secret:` ++ user_id; absent ⇒ `False`; decrypt (`fernet_decrypt` stands
for `self.fernet.decrypt`, `none` for its exceptions, every exception being
caught as `False`); finally `totp_verify` stands for
`pyotp.TOTP(secret).verify(token, valid_window=1)`. -/
def validate_totp_token (totp_verify : String → String → Bool)
    (fernet_decrypt : String → Option String) (st : KvStore String) (now : Nat)
    (user_id token : String) : Bool :=
  match kvGet st now ("mfa_secret:" ++ user_id) with
  | none => false
  | some encrypted_secret =>
    match fernet_decrypt encrypted_secret with
    | none => false
    | some secret => totp_verify secret token

/-- `validate_mfa_token(user_id, token, method)`: check the dedicated
`mfa_attempts:` ++ user_id counter against the `mfa_attempt` policy; a
throttled attempt logs a brute-force event at high severity (with the
source's literal "unknown" request fields and risk 0.8) and returns `False`
without touching the counter or the code; otherwise increment the counter
and dispatch on the method — TOTP verifies, every other method returns
`False`.  Returns (result, counters, event log). -/
def validate_mfa_token (totp_verify : String → String → Bool)
    (fernet_decrypt : String → Option String) (rl : KvStore Nat) (mfa : KvStore String)
    (log : EventLog) (now : Nat) (event_id : String) (ts : Nat)
    (user_id token : String) (method : MFAMethod) : Bool × KvStore Nat × EventLog :=
  let mfa_key := "mfa_attempts:" ++ user_id
  if check_rate_limit rl now mfa_key "mfa_attempt" then
    let rl' := increment_rate_limit_counter rl now mfa_key "mfa_attempt"
    match method with
    | MFAMethod.totp => (validate_totp_token totp_verify fernet_decrypt mfa now user_id token, rl', log)
    | _ => (false, rl', log)
  else
    (false, rl,
      log_security_event log
        { event_id := event_id, user_id := some user_id,
          event_type := ThreatType.brute_force, severity := SecurityLevel.high,
          timestamp := ts, ip_address := "unknown", user_agent := "unknown",
          details := [("mfa_brute_force", "True")], risk_score := 8 / 10,
          geolocation := none })

/-- `n` successive `validate_mfa_token` TOTP calls for one user (same clock
and MFA store; the attempt counter and event log evolve).  Results are in
call order. -/
def run_mfa_attempts (totp_verify : String → String → Bool)
    (fernet_decrypt : String → Option String) (mfa : KvStore String) (now : Nat)
    (event_id : String) (ts : Nat) (user_id token : String) :
    Nat → KvStore Nat → EventLog → List Bool × KvStore Nat × EventLog
  | 0, rl, log => ([], rl, log)
  | n + 1, rl, log =>
    let s := validate_mfa_token totp_verify fernet_decrypt rl mfa log now event_id ts
      user_id token MFAMethod.totp
    let r := run_mfa_attempts totp_verify fernet_decrypt mfa now event_id ts user_id token
      n s.2.1 s.2.2
    (s.1 :: r.1, r.2)

/-- The special-character set of `_calculate_password_entropy` (and of the
password validator). -/
def special_characters : List Char :=
  ['!', '@', '#', '$', '%', '^', '&', '*', '(', ')', '_', '+', '-', '=',
   '[', ']', '{', '}', '|', ';', ':', ',', '.', '<', '>', '?']

/-- The `charset_size` computed by `_calculate_password_entropy`: 26 for a
lowercase letter present, 26 for uppercase, 10 for a digit, 32 for a special
character. -/
def password_charset_size (password : String) : Nat :=
  (if password.data.any (fun c => c.isLower) then 26 else 0)
    + (if password.data.any (fun c => c.isUpper) then 26 else 0)
    + (if password.data.any (fun c => c.isDigit) then 10 else 0)
    + (if password.data.any (fun c => special_characters.contains c) then 32 else 0)

/-- `_calculate_password_entropy(password)`:
`len(password) * math.log2(charset_size)` when the charset is nonempty,
else 0.  Real-valued (the source computes in floating point). -/
noncomputable def calculate_password_entropy (password : String) : ℝ :=
  if 0 < password_charset_size password then
    (password.length : ℝ) * Real.logb 2 (password_charset_size password)
  else 0

/-- `2 ** entropy` of `_estimate_crack_time`, computed exactly: with
`entropy = len * log2 charset` this is `charset ^ len` (and `2 ** 0 = 1`
when the charset is empty). -/
def total_combinations (password : String) : Nat :=
  if 0 < password_charset_size password then
    password_charset_size password ^ password.length
  else 1

/-- `seconds_to_crack = total_combinations / (2 * guesses_per_second)` with
`guesses_per_second = 1e9`. -/
def seconds_to_crack (password : String) : ℚ :=
  (total_combinations password : ℚ) / (2 * 1000000000)

/-- The minutes/hours/days/years bucketing of `_estimate_crack_time`
(Python `int(s // k)` on a nonnegative value is the floor). -/
def estimate_crack_time (password : String) : String :=
  let s := seconds_to_crack password
  if s < 60 then "Less than 1 minute"
  else if s < 3600 then toString ⌊s / 60⌋ ++ " minutes"
  else if s < 86400 then toString ⌊s / 3600⌋ ++ " hours"
  else if s < 31536000 then toString ⌊s / 86400⌋ ++ " days"
  else toString ⌊s / 31536000⌋ ++ " years"

/-- The duration, in seconds, that a bucketed crack-time string denotes:
0 for "Less than 1 minute", `k` minutes = `60 * k` seconds, and so on,
with the same branch structure as `estimate_crack_time`. -/
def crack_bucket_seconds (s : ℚ) : ℚ :=
  if s < 60 then 0
  else if s < 3600 then 60 * (⌊s / 60⌋ : ℤ)
  else if s < 86400 then 3600 * (⌊s / 3600⌋ : ℤ)
  else if s < 31536000 then 86400 * (⌊s / 86400⌋ : ℤ)
  else 31536000 * (⌊s / 31536000⌋ : ℤ)

/-- The duration denoted by `estimate_crack_time password`. -/
def crack_time_seconds (password : String) : ℚ :=
  crack_bucket_seconds (seconds_to_crack password)

/-- `n` successive `_log_security_event` calls with the same event. -/
def log_events_n (e : SecurityEvent) : Nat → EventLog → EventLog
  | 0, log => log
  | n + 1, log => log_events_n e n (log_security_event log e)

/-- A concrete low-severity event used for concrete evaluations. -/
def sample_event : SecurityEvent :=
  { event_id := "e", user_id := none, event_type := ThreatType.api_abuse,
    severity := SecurityLevel.low, timestamp := 0, ip_address := "ip",
    user_agent := "ua", details := [], risk_score := 0, geolocation := none }

/-! ### Basic lemmas about the store and event log -/
theorem kvGet_setex_self {α : Type} (st : KvStore α) (now t : Nat) (k : String)
    (ttl : Nat) (v : α) :
    kvGet (kvSetex st now k ttl v) t k = if t < now + ttl then some v else none := by
  simp [kvGet, kvSetex, List.find?]
theorem kvGet_setex_ne {α : Type} (st : KvStore α) (now t : Nat) (k k' : String)
    (ttl : Nat) (v : α) (h : k' ≠ k) :
    kvGet (kvSetex st now k ttl v) t k' = kvGet st t k' := by
  have hb : (k == k') = false := beq_eq_false_iff_ne.mpr (Ne.symm h)
  simp [kvGet, kvSetex, List.find?, hb]
theorem kvGet_cons_ne {α : Type} (e : String × α × Nat) (st : KvStore α) (t : Nat)
    (k : String) (h : (e.1 == k) = false) :
    kvGet (e :: st) t k = kvGet st t k := by
  simp [kvGet, List.find?, h]
theorem kvGet_delete_self {α : Type} (st : KvStore α) (t : Nat) (k : String) :
    kvGet (kvDelete st k) t k = none := by
  induction st with
  | nil => rfl
  | cons e st ih =>
    by_cases hk : (e.1 == k) = true
    · have h1 : kvDelete (e :: st) k = kvDelete st k := by
        simp [kvDelete, List.filter_cons, hk]
      rw [h1]; exact ih
    · have hk' : (e.1 == k) = false := by simpa using hk
      have h1 : kvDelete (e :: st) k = e :: kvDelete st k := by
        simp [kvDelete, List.filter_cons, hk']
      rw [h1, kvGet_cons_ne _ _ _ _ hk']
      exact ih
theorem log_security_event_length (log : EventLog) (e : SecurityEvent) :
    (log_security_event log e).security_events.length =
      min 10001 (log.security_events.length + 1) := by
  unfold log_security_event trigger_security_alert
  by_cases h : e.severity = SecurityLevel.high ∨ e.severity = SecurityLevel.critical <;>
    simp [h, List.length_take] <;> omega
theorem log_security_event_head (log : EventLog) (e : SecurityEvent) :
    (log_security_event log e).security_events.head? = some e := by
  unfold log_security_event trigger_security_alert
  by_cases h : e.severity = SecurityLevel.high ∨ e.severity = SecurityLevel.critical <;>
    simp [h, List.take]
theorem rate_limits_get_requests_pos (action : String) :
    0 < (rate_limits_get action).1 := by
  unfold rate_limits_get
  split_ifs <;> norm_num
theorem rate_limits_get_window_pos (action : String) :
    0 < (rate_limits_get action).2 := by
  unfold rate_limits_get
  split_ifs <;> norm_num

theorem log_events_n_length (e : SecurityEvent) :
    ∀ (n : Nat) (log : EventLog), log.security_events.length ≤ 10001 →
      (log_events_n e n log).security_events.length =
        min 10001 (log.security_events.length + n) := by
  intro n
  induction n with
  | zero =>
    intro log h
    simp only [log_events_n]
    omega
  | succ n ih =>
    intro log h
    show (log_events_n e n (log_security_event log e)).security_events.length = _
    rw [ih _ (by rw [log_security_event_length]; omega), log_security_event_length]
    omega

/-! ### Claim theorems -/

/-- C6: for the feature vector with new_location = 1, new_device = 1,
failed_auth_ratio = 1 and every other feature 0, the composite risk score
equals 0.95 = 0.3 + 0.25 + 0.4, the threat level is critical (the 0.8
threshold), and the threat-detection response has blocking required. -/
theorem C6_critical_scenario_blocks :
    calculate_risk_score ⟨0, 1, 1, 0, 0, 1⟩ = 95 / 100 ∧
    determine_threat_level (calculate_risk_score ⟨0, 1, 1, 0, 0, 1⟩) =
      SecurityLevel.critical ∧
    (ai_powered_threat_detection EventLog.empty ⟨0, 1, 1, 0, 0, 1⟩
        "u" "ip" "ua" "e" 0).1.blocking_required = true := by
  have h1 : calculate_risk_score ⟨0, 1, 1, 0, 0, 1⟩ = 95 / 100 := by
    simp only [calculate_risk_score]
    norm_num [min_def, max_def]
  have h2 : determine_threat_level (95 / 100 : ℚ) = SecurityLevel.critical := by
    simp only [determine_threat_level]
    norm_num
  refine ⟨h1, ?_, ?_⟩
  · rw [h1]; exact h2
  · simp only [ai_powered_threat_detection]
    rw [h1, h2]
    rfl

/-- C9 counterexample: for the feature vector with api_call_frequency = 0.05
and data_access_volume = 0.01 (others 0) the composite risk score is not
0.0075 — the data-volume term contributes 0.001 as well. -/
theorem C9_score_is_not_0075 :
    calculate_risk_score ⟨0, 0, 0, 1 / 20, 1 / 100, 0⟩ ≠ 75 / 10000 := by
  have h1 : calculate_risk_score ⟨0, 0, 0, 1 / 20, 1 / 100, 0⟩ = 85 / 10000 := by
    simp only [calculate_risk_score]
    norm_num [min_def, max_def]
  rw [h1]
  norm_num

/-- C9 amended: for that feature vector the composite risk score is exactly
0.0085 = 0.05 * 0.15 + 0.01 * 0.1, the threat level is low, and the
threat-detection response does not require blocking. -/
theorem C9_low_scenario_amended :
    calculate_risk_score ⟨0, 0, 0, 1 / 20, 1 / 100, 0⟩ = 85 / 10000 ∧
    determine_threat_level (calculate_risk_score ⟨0, 0, 0, 1 / 20, 1 / 100, 0⟩) =
      SecurityLevel.low ∧
    (ai_powered_threat_detection EventLog.empty ⟨0, 0, 0, 1 / 20, 1 / 100, 0⟩
        "u" "ip" "ua" "e" 0).1.blocking_required = false := by
  have h1 : calculate_risk_score ⟨0, 0, 0, 1 / 20, 1 / 100, 0⟩ = 85 / 10000 := by
    simp only [calculate_risk_score]
    norm_num [min_def, max_def]
  have h2 : determine_threat_level (85 / 10000 : ℚ) = SecurityLevel.low := by
    simp only [determine_threat_level]
    norm_num
  refine ⟨h1, ?_, ?_⟩
  · rw [h1]; exact h2
  · simp only [ai_powered_threat_detection]
    rw [h1, h2]
    rfl

/-- C2 (code bug): 10001 consecutive appends starting from the empty log
leave 10001 events in `security_events`: the `LTRIM security_events 0 10000`
of `_log_security_event` retains the 10001 newest entries (indices 0..10000
inclusive), exceeding the documented 10000 bound. -/
theorem C2_log_exceeds_10000 :
    (log_events_n sample_event 10001 EventLog.empty).security_events.length = 10001 ∧
    10000 < (log_events_n sample_event 10001 EventLog.empty).security_events.length := by
  have h0 : EventLog.empty.security_events.length = 0 := rfl
  have h := log_events_n_length sample_event 10001 EventLog.empty (by rw [h0]; omega)
  rw [h0] at h
  refine ⟨?_, ?_⟩ <;> rw [h] <;> omega

/-- C3 (code bug): a concrete throttled call for the action "bulk_export",
absent from the policy table, with its ip-dimension counter at the default
quota 100: the API-abuse event at medium severity is logged, but the outcome
is the `KeyError` from `self.rate_limits[action]` inside the `HTTPException`
detail, not the 429 rate-limit failure with retry_after = 3600. -/
theorem C3_default_action_keyerror :
    (advanced_rate_limiting [("rate_limit:bulk_export:ip:1.2.3.4", 100, 1)]
        EventLog.empty 0 "e" 0 "1.2.3.4" "agent" none "bulk_export").1 =
      RateLimitOutcome.keyError ∧
    (advanced_rate_limiting [("rate_limit:bulk_export:ip:1.2.3.4", 100, 1)]
        EventLog.empty 0 "e" 0 "1.2.3.4" "agent" none "bulk_export").2.2.security_events.head? =
      some { event_id := "e", user_id := none, event_type := ThreatType.api_abuse,
             severity := SecurityLevel.medium, timestamp := 0, ip_address := "1.2.3.4",
             user_agent := "agent",
             details := [("action", "bulk_export"), ("rate_limit_exceeded", "True")],
             risk_score := 3 / 5, geolocation := none } := by
  exact ⟨rfl, rfl⟩

theorem jwt_decode_self_no_verify (secret : String) (p : JwtPayload) (now : Nat) :
    jwt_decode secret ⟨p, secret⟩ now false = Except.ok p := by
  unfold jwt_decode
  rw [if_pos rfl]
  cases hp : p.exp with
  | none => rfl
  | some e => simp

/-- C1 counterexample: a signature-valid, unexpired token carrying no jti
claim is accepted by `validate_jwt_token` although the store is empty, so no
revocation-ledger entry for it exists — the claimed "absence of the ledger
entry implies Revoked" fails for jti-less tokens. -/
theorem C1_no_jti_token_accepted_without_record :
    validate_jwt_token "s" ([] : KvStore TokenRecord)
        ⟨⟨some "u", 0, 0, some 100, none, "access"⟩, "s"⟩ 0 =
      Except.ok ⟨some "u", 0, 0, some 100, none, "access"⟩ ∧
    validate_jwt_token "s" ([] : KvStore TokenRecord)
        ⟨⟨some "u", 0, 0, some 100, none, "access"⟩, "s"⟩ 0 ≠
      Except.error JwtFailure.revoked := by
  exact ⟨rfl, fun h => Except.noConfusion h⟩

/-- C1 amended: for every token whose signature and temporal claims verify
and whose payload carries a jti, `validate_jwt_token` fails with Revoked
whenever the store holds no live ledger entry for that jti, and accepts the
token only when the entry exists; a decodable token without a jti skips the
ledger check (see the counterexample). -/
theorem C1_jti_tokens_need_ledger_entry (secret : String) (st : KvStore TokenRecord)
    (tok : Jwt) (now : Nat) (p : JwtPayload) (j : String)
    (hdec : jwt_decode secret tok now true = Except.ok p) (hj : p.jti = some j) :
    (kvGet st now ("jwt:" ++ j) = none →
      validate_jwt_token secret st tok now = Except.error JwtFailure.revoked) ∧
    (∀ q : JwtPayload, validate_jwt_token secret st tok now = Except.ok q →
      kvGet st now ("jwt:" ++ j) ≠ none) := by
  constructor
  · intro habs
    simp [validate_jwt_token, hdec, hj, habs]
  · intro q hq habs
    simp [validate_jwt_token, hdec, hj, habs] at hq

theorem C1_jti_tokens_need_ledger_entry_witness :
    validate_jwt_token "s" ([] : KvStore TokenRecord)
        ⟨⟨some "u", 0, 0, some 100, some "a", "access"⟩, "s"⟩ 0 =
      Except.error JwtFailure.revoked :=
  (C1_jti_tokens_need_ledger_entry "s" [] ⟨⟨some "u", 0, 0, some 100, some "a", "access"⟩, "s"⟩
    0 ⟨some "u", 0, 0, some 100, some "a", "access"⟩ "a" rfl rfl).1 rfl

/-- C5: issuing an access token and immediately validating it returns the
enhanced payload, whose sub is the original subject; and for a token issued
with any token type, revoking it (which reports success) and then validating
it fails with Revoked. -/
theorem C5_issue_validate_revoke_roundtrip (secret : String) (st : KvStore TokenRecord)
    (now : Nat) (sub jti ttype : String) :
    (validate_jwt_token secret
        (create_secure_jwt_token secret st now (some sub) jti "access").2
        (create_secure_jwt_token secret st now (some sub) jti "access").1 now =
      Except.ok (create_secure_jwt_token secret st now (some sub) jti "access").1.payload ∧
      (create_secure_jwt_token secret st now (some sub) jti "access").1.payload.sub =
        some sub) ∧
    ((revoke_jwt_token secret
        (create_secure_jwt_token secret st now (some sub) jti ttype).2
        (create_secure_jwt_token secret st now (some sub) jti ttype).1 now).1 = true ∧
      validate_jwt_token secret
        (revoke_jwt_token secret
          (create_secure_jwt_token secret st now (some sub) jti ttype).2
          (create_secure_jwt_token secret st now (some sub) jti ttype).1 now).2
        (create_secure_jwt_token secret st now (some sub) jti ttype).1 now =
      Except.error JwtFailure.revoked) := by
  have hlt : now < now + access_token_expire := by
    simp [access_token_expire]
  have hnexp : ¬ (now + access_token_expire < now) := by
    simp [access_token_expire]
  have hnexp' : ¬ (now + refresh_token_expire < now) := by
    simp [refresh_token_expire]
  refine ⟨⟨?_, ?_⟩, ?_, ?_⟩
  · simp [create_secure_jwt_token, validate_jwt_token, jwt_decode, hnexp,
      kvGet_setex_self, hlt]
  · simp [create_secure_jwt_token]
  · by_cases ha : ttype = "access"
    · simp [create_secure_jwt_token, revoke_jwt_token, jwt_decode, ha, hnexp]
    · by_cases hr : ttype = "refresh"
      · simp [create_secure_jwt_token, revoke_jwt_token, jwt_decode, ha, hr, hnexp']
      · simp [create_secure_jwt_token, revoke_jwt_token, jwt_decode, ha, hr]
  · by_cases ha : ttype = "access"
    · simp [create_secure_jwt_token, revoke_jwt_token, validate_jwt_token, jwt_decode,
        ha, hnexp, kvGet_delete_self]
    · by_cases hr : ttype = "refresh"
      · simp [create_secure_jwt_token, revoke_jwt_token, validate_jwt_token, jwt_decode,
          ha, hr, hnexp', kvGet_delete_self]
      · simp [create_secure_jwt_token, revoke_jwt_token, validate_jwt_token, jwt_decode,
          ha, hr, kvGet_delete_self]

theorem allow_and_record_fresh (st : KvStore Nat) (now : Nat) (key action : String)
    (h : kvGet st now key = none) :
    allow_and_record st now key action =
      (true, kvSetex st now key (rate_limits_get action).2 1) := by
  simp [allow_and_record, check_rate_limit, increment_rate_limit_counter, h]

theorem allow_and_record_below (st : KvStore Nat) (now : Nat) (key action : String)
    (c : Nat) (h : kvGet st now key = some c) (hc : c < (rate_limits_get action).1) :
    allow_and_record st now key action =
      (true, kvSetex st now key (rate_limits_get action).2 (c + 1)) := by
  simp [allow_and_record, check_rate_limit, increment_rate_limit_counter, h, hc]

theorem allow_and_record_full (st : KvStore Nat) (now : Nat) (key action : String)
    (c : Nat) (h : kvGet st now key = some c) (hc : ¬ c < (rate_limits_get action).1) :
    allow_and_record st now key action = (false, st) := by
  simp [allow_and_record, check_rate_limit, h, hc]

theorem run_allow_record_from_count (now : Nat) (key action : String) :
    ∀ (n : Nat) (st : KvStore Nat) (c : Nat), kvGet st now key = some c →
      c + n ≤ (rate_limits_get action).1 →
      (run_allow_record n st now key action).1 = List.replicate n true ∧
      (∀ t : Nat, kvGet (run_allow_record n st now key action).2 t key =
        if n = 0 then kvGet st t key
        else if t < now + (rate_limits_get action).2 then some (c + n) else none) := by
  intro n
  induction n with
  | zero =>
    intro st c h hle
    simp [run_allow_record]
  | succ n ih =>
    intro st c h hle
    have hc : c < (rate_limits_get action).1 := by omega
    have hstep := allow_and_record_below st now key action c h hc
    have hget : kvGet (kvSetex st now key (rate_limits_get action).2 (c + 1)) now key =
        some (c + 1) := by
      rw [kvGet_setex_self, if_pos (by have := rate_limits_get_window_pos action; omega)]
    have hrec := ih (kvSetex st now key (rate_limits_get action).2 (c + 1)) (c + 1) hget
      (by omega)
    refine ⟨?_, ?_⟩
    · simp only [run_allow_record, hstep]
      rw [List.replicate_succ]
      exact congrArg (List.cons true) hrec.1
    · intro t
      have h2 := hrec.2 t
      simp only [run_allow_record, hstep]
      rw [h2, kvGet_setex_self]
      have hcn : c + 1 + n = c + (n + 1) := by omega
      by_cases hn : n = 0
      · subst hn
        simp
      · simp [hn, hcn]

theorem run_allow_record_append (n m : Nat) (st : KvStore Nat) (now : Nat)
    (key action : String) :
    run_allow_record (m + n) st now key action =
      ((run_allow_record m st now key action).1 ++
        (run_allow_record n (run_allow_record m st now key action).2 now key action).1,
       (run_allow_record n (run_allow_record m st now key action).2 now key action).2) := by
  induction m generalizing st with
  | zero => simp [run_allow_record]
  | succ m ih =>
    have hmn : m + 1 + n = (m + n) + 1 := by omega
    rw [hmn]
    simp only [run_allow_record]
    rw [ih]
    simp

/-- C4: on a fresh window, exactly quota allow-and-record calls succeed on a
counter key, the (quota+1)-th allow returns false, and once the window has
elapsed (the counter expired) allow returns true again; moreover
`advanced_rate_limiting` admits a request only when every non-null identifier
dimension has a live count strictly below the action quota (absent counters
count as 0). -/
theorem C4_window_quota_exhaustion_and_reset (action key : String) (st : KvStore Nat)
    (now t : Nat) (hfresh : kvGet st now key = none)
    (ht : now + (rate_limits_get action).2 ≤ t) :
    (run_allow_record (rate_limits_get action).1 st now key action).1 =
      List.replicate (rate_limits_get action).1 true ∧
    (run_allow_record ((rate_limits_get action).1 + 1) st now key action).1 =
      List.replicate (rate_limits_get action).1 true ++ [false] ∧
    check_rate_limit
      (run_allow_record ((rate_limits_get action).1 + 1) st now key action).2 t key action =
      true ∧
    ∀ (st2 : KvStore Nat) (log2 : EventLog) (now2 : Nat) (eid : String) (ts : Nat)
      (ip ua : String) (uid : Option String) (act2 : String),
      (advanced_rate_limiting st2 log2 now2 eid ts ip ua uid act2).1 =
        RateLimitOutcome.allowed →
      ∀ k, k ∈ rate_limit_keys act2 ip uid ua →
        (kvGet st2 now2 k).getD 0 < (rate_limits_get act2).1 := by
  have hq := rate_limits_get_requests_pos action
  have hw := rate_limits_get_window_pos action
  obtain ⟨q', hq'⟩ : ∃ q', (rate_limits_get action).1 = q' + 1 :=
    ⟨(rate_limits_get action).1 - 1, by omega⟩
  rw [hq']
  have hstep1 := allow_and_record_fresh st now key action hfresh
  have hget1 : kvGet (kvSetex st now key (rate_limits_get action).2 1) now key = some 1 := by
    rw [kvGet_setex_self, if_pos (by omega)]
  have hrun1 : run_allow_record 1 st now key action =
      ([true], kvSetex st now key (rate_limits_get action).2 1) := by
    simp [run_allow_record, hstep1]
  have happ := run_allow_record_append q' 1 st now key action
  rw [hrun1] at happ
  have hrun' := run_allow_record_from_count now key action q'
    (kvSetex st now key (rate_limits_get action).2 1) 1 hget1 (by omega)
  have hshape : ∀ t' : Nat,
      kvGet (run_allow_record q' (kvSetex st now key (rate_limits_get action).2 1)
        now key action).2 t' key =
      if t' < now + (rate_limits_get action).2 then some (q' + 1) else none := by
    intro t'
    rw [hrun'.2 t']
    by_cases h0 : q' = 0
    · subst h0
      rw [if_pos rfl, kvGet_setex_self]
    · rw [if_neg h0]
      have hco : 1 + q' = q' + 1 := by omega
      rw [hco]
  have hcomm : q' + 1 = 1 + q' := by omega
  have hrunq : (run_allow_record (q' + 1) st now key action).1 =
      List.replicate (q' + 1) true := by
    rw [hcomm, happ]
    simp only [hrun'.1]
    rw [List.replicate_add]
    rfl
  have hstq : (run_allow_record (q' + 1) st now key action).2 =
      (run_allow_record q' (kvSetex st now key (rate_limits_get action).2 1)
        now key action).2 := by
    rw [hcomm, happ]
  have hgetq : kvGet (run_allow_record (q' + 1) st now key action).2 now key =
      some (q' + 1) := by
    rw [hstq, hshape now, if_pos (by omega)]
  have hstepfull := allow_and_record_full
    (run_allow_record (q' + 1) st now key action).2 now key action (q' + 1) hgetq
    (by rw [hq']; omega)
  have happ2 := run_allow_record_append 1 (q' + 1) st now key action
  have hrunlast : run_allow_record 1 (run_allow_record (q' + 1) st now key action).2
      now key action = ([false], (run_allow_record (q' + 1) st now key action).2) := by
    generalize hX : (run_allow_record (q' + 1) st now key action).2 = X at hstepfull ⊢
    simp [run_allow_record, hstepfull]
  refine ⟨hrunq, ?_, ?_, ?_⟩
  · rw [happ2, hrunlast, hrunq]
  · rw [happ2, hrunlast]
    simp only [check_rate_limit]
    rw [hstq, hshape t, if_neg (by omega)]
  · intro st2 log2 now2 eid ts ip ua uid act2 hallow k hk
    by_cases hall : (rate_limit_keys act2 ip uid ua).all
        (fun kk => check_rate_limit st2 now2 kk act2) = true
    · have hck := List.all_eq_true.mp hall k hk
      have hqq := rate_limits_get_requests_pos act2
      unfold check_rate_limit at hck
      cases hkv : kvGet st2 now2 k with
      | none => simp [hkv]; omega
      | some c =>
        rw [hkv] at hck
        simp at hck
        simpa [hkv] using hck
    · exfalso
      by_cases hm : rate_limits_member act2 = true <;>
        simp [advanced_rate_limiting, hall, hm] at hallow

theorem C4_window_quota_exhaustion_and_reset_witness :
    kvGet ([] : KvStore Nat) 0 "k" = none ∧
    0 + (rate_limits_get "login").2 ≤ 300 ∧
    (run_allow_record 5 [] 0 "k" "login").1 = List.replicate 5 true ∧
    (run_allow_record 6 [] 0 "k" "login").1 = List.replicate 5 true ++ [false] ∧
    check_rate_limit (run_allow_record 6 [] 0 "k" "login").2 300 "k" "login" = true := by
  refine ⟨rfl, by decide, ?_, ?_, ?_⟩
  · exact (C4_window_quota_exhaustion_and_reset "login" "k" [] 0 300 rfl (by decide)).1
  · exact (C4_window_quota_exhaustion_and_reset "login" "k" [] 0 300 rfl (by decide)).2.1
  · exact (C4_window_quota_exhaustion_and_reset "login" "k" [] 0 300 rfl (by decide)).2.2.1

theorem rate_limits_get_mfa_attempt : rate_limits_get "mfa_attempt" = (10, 300) := rfl

theorem validate_mfa_fresh (V : String → String → Bool) (D : String → Option String)
    (rl : KvStore Nat) (mfa : KvStore String) (log : EventLog) (now : Nat) (eid : String)
    (ts : Nat) (uid token : String)
    (h : kvGet rl now ("mfa_attempts:" ++ uid) = none) :
    validate_mfa_token V D rl mfa log now eid ts uid token MFAMethod.totp =
      (validate_totp_token V D mfa now uid token,
        kvSetex rl now ("mfa_attempts:" ++ uid) 300 1, log) := by
  simp [validate_mfa_token, check_rate_limit, increment_rate_limit_counter, h,
    rate_limits_get_mfa_attempt]

theorem validate_mfa_below (V : String → String → Bool) (D : String → Option String)
    (rl : KvStore Nat) (mfa : KvStore String) (log : EventLog) (now : Nat) (eid : String)
    (ts : Nat) (uid token : String) (c : Nat)
    (h : kvGet rl now ("mfa_attempts:" ++ uid) = some c) (hc : c < 10) :
    validate_mfa_token V D rl mfa log now eid ts uid token MFAMethod.totp =
      (validate_totp_token V D mfa now uid token,
        kvSetex rl now ("mfa_attempts:" ++ uid) 300 (c + 1), log) := by
  simp [validate_mfa_token, check_rate_limit, increment_rate_limit_counter, h,
    rate_limits_get_mfa_attempt, hc]

theorem validate_mfa_throttled (V : String → String → Bool) (D : String → Option String)
    (rl : KvStore Nat) (mfa : KvStore String) (log : EventLog) (now : Nat) (eid : String)
    (ts : Nat) (uid token : String) (c : Nat)
    (h : kvGet rl now ("mfa_attempts:" ++ uid) = some c) (hc : ¬ c < 10) :
    validate_mfa_token V D rl mfa log now eid ts uid token MFAMethod.totp =
      (false, rl,
        log_security_event log
          ⟨eid, some uid, ThreatType.brute_force, SecurityLevel.high, ts, "unknown",
            "unknown", [("mfa_brute_force", "True")], 8 / 10, none⟩) := by
  simp [validate_mfa_token, check_rate_limit, h, rate_limits_get_mfa_attempt, hc]

theorem run_mfa_attempts_succ (V : String → String → Bool) (D : String → Option String)
    (mfa : KvStore String) (now : Nat) (eid : String) (ts : Nat) (uid token : String)
    (n : Nat) (rl : KvStore Nat) (log : EventLog) :
    run_mfa_attempts V D mfa now eid ts uid token (n + 1) rl log =
      ((validate_mfa_token V D rl mfa log now eid ts uid token MFAMethod.totp).1 ::
        (run_mfa_attempts V D mfa now eid ts uid token n
          (validate_mfa_token V D rl mfa log now eid ts uid token MFAMethod.totp).2.1
          (validate_mfa_token V D rl mfa log now eid ts uid token MFAMethod.totp).2.2).1,
       (run_mfa_attempts V D mfa now eid ts uid token n
          (validate_mfa_token V D rl mfa log now eid ts uid token MFAMethod.totp).2.1
          (validate_mfa_token V D rl mfa log now eid ts uid token MFAMethod.totp).2.2).2) :=
  rfl

theorem run_mfa_attempts_from_count (V : String → String → Bool)
    (D : String → Option String) (mfa : KvStore String) (now : Nat) (eid : String)
    (ts : Nat) (uid token : String) :
    ∀ (n : Nat) (rl : KvStore Nat) (log : EventLog) (c : Nat),
      kvGet rl now ("mfa_attempts:" ++ uid) = some c → c + n ≤ 10 →
      (run_mfa_attempts V D mfa now eid ts uid token n rl log).1 =
        List.replicate n (validate_totp_token V D mfa now uid token) ∧
      (run_mfa_attempts V D mfa now eid ts uid token n rl log).2.2 = log ∧
      kvGet (run_mfa_attempts V D mfa now eid ts uid token n rl log).2.1 now
        ("mfa_attempts:" ++ uid) = some (c + n) := by
  intro n
  induction n with
  | zero =>
    intro rl log c h hle
    exact ⟨rfl, rfl, by simpa [run_mfa_attempts] using h⟩
  | succ n ih =>
    intro rl log c h hle
    have hstep := validate_mfa_below V D rl mfa log now eid ts uid token c h (by omega)
    have hget : kvGet (kvSetex rl now ("mfa_attempts:" ++ uid) 300 (c + 1)) now
        ("mfa_attempts:" ++ uid) = some (c + 1) := by
      rw [kvGet_setex_self, if_pos (by omega)]
    have hrec := ih (kvSetex rl now ("mfa_attempts:" ++ uid) 300 (c + 1)) log (c + 1)
      hget (by omega)
    rw [run_mfa_attempts_succ, hstep]
    refine ⟨?_, hrec.2.1, ?_⟩
    · rw [List.replicate_succ]
      exact congrArg (List.cons (validate_totp_token V D mfa now uid token)) hrec.1
    · rw [hrec.2.2]
      have hcn : c + 1 + n = c + (n + 1) := by omega
      rw [hcn]

/-- C7: from a fresh `mfa_attempt` window, the first 10 MFA validation calls
for a user all proceed to TOTP code verification (each result is exactly the
verifier outcome, and nothing is logged); the 11th call is throttled: it
returns false for every verification oracle, leaves the counter store
unchanged, and logs a brute-force `SecurityEvent` at high severity. -/
theorem C7_mfa_throttled_on_11th (V : String → String → Bool)
    (D : String → Option String) (mfa : KvStore String) (rl : KvStore Nat)
    (log : EventLog) (now : Nat) (eid : String) (ts : Nat) (uid token : String)
    (hfresh : kvGet rl now ("mfa_attempts:" ++ uid) = none) :
    (run_mfa_attempts V D mfa now eid ts uid token 10 rl log).1 =
      List.replicate 10 (validate_totp_token V D mfa now uid token) ∧
    (run_mfa_attempts V D mfa now eid ts uid token 10 rl log).2.2 = log ∧
    validate_mfa_token V D (run_mfa_attempts V D mfa now eid ts uid token 10 rl log).2.1
        mfa log now eid ts uid token MFAMethod.totp =
      (false, (run_mfa_attempts V D mfa now eid ts uid token 10 rl log).2.1,
        log_security_event log
          ⟨eid, some uid, ThreatType.brute_force, SecurityLevel.high, ts, "unknown",
            "unknown", [("mfa_brute_force", "True")], 8 / 10, none⟩) ∧
    (validate_mfa_token V D (run_mfa_attempts V D mfa now eid ts uid token 10 rl log).2.1
        mfa log now eid ts uid token MFAMethod.totp).2.2.security_events.head? =
      some ⟨eid, some uid, ThreatType.brute_force, SecurityLevel.high, ts, "unknown",
        "unknown", [("mfa_brute_force", "True")], 8 / 10, none⟩ := by
  have hstep1 := validate_mfa_fresh V D rl mfa log now eid ts uid token hfresh
  have hget1 : kvGet (kvSetex rl now ("mfa_attempts:" ++ uid) 300 1) now
      ("mfa_attempts:" ++ uid) = some 1 := by
    rw [kvGet_setex_self, if_pos (by omega)]
  have hrec := run_mfa_attempts_from_count V D mfa now eid ts uid token 9
    (kvSetex rl now ("mfa_attempts:" ++ uid) 300 1) log 1 hget1 (by omega)
  have h10 : (10 : Nat) = 9 + 1 := rfl
  have hrun10 := run_mfa_attempts_succ V D mfa now eid ts uid token 9 rl log
  simp only [hstep1] at hrun10
  have ha : (run_mfa_attempts V D mfa now eid ts uid token 10 rl log).1 =
      List.replicate 10 (validate_totp_token V D mfa now uid token) := by
    rw [h10, hrun10, List.replicate_succ]
    exact congrArg (List.cons (validate_totp_token V D mfa now uid token)) hrec.1
  have hb : (run_mfa_attempts V D mfa now eid ts uid token 10 rl log).2.2 = log := by
    rw [h10, hrun10]
    exact hrec.2.1
  have hcount : kvGet (run_mfa_attempts V D mfa now eid ts uid token 10 rl log).2.1 now
      ("mfa_attempts:" ++ uid) = some 10 := by
    rw [h10, hrun10]
    exact hrec.2.2
  have hthrottle := validate_mfa_throttled V D
    (run_mfa_attempts V D mfa now eid ts uid token 10 rl log).2.1 mfa log now eid ts uid
    token 10 hcount (by omega)
  refine ⟨ha, hb, hthrottle, ?_⟩
  rw [hthrottle]
  exact log_security_event_head log _

theorem C7_mfa_throttled_on_11th_witness :
    kvGet ([] : KvStore Nat) 0 ("mfa_attempts:" ++ "u") = none ∧
    (run_mfa_attempts (fun _ _ => true) (fun s => some s) [] 0 "e" 0 "u" "123456"
        10 [] EventLog.empty).1 =
      List.replicate 10 (validate_totp_token (fun _ _ => true) (fun s => some s) [] 0
        "u" "123456") ∧
    (validate_mfa_token (fun _ _ => true) (fun s => some s)
        (run_mfa_attempts (fun _ _ => true) (fun s => some s) [] 0 "e" 0 "u" "123456"
          10 [] EventLog.empty).2.1
        [] EventLog.empty 0 "e" 0 "u" "123456" MFAMethod.totp).1 = false := by
  refine ⟨rfl, ?_, ?_⟩
  · exact (C7_mfa_throttled_on_11th (fun _ _ => true) (fun s => some s) [] []
      EventLog.empty 0 "e" 0 "u" "123456" rfl).1
  · have h := (C7_mfa_throttled_on_11th (fun _ _ => true) (fun s => some s) [] []
      EventLog.empty 0 "e" 0 "u" "123456" rfl).2.2.1
    rw [h]

theorem mfa_setup_key_ne_secret_key (uid uid2 : String) :
    ("mfa_secret:" ++ uid) ≠ ("mfa_setup:" ++ uid2) := by
  intro hEq
  have hd := congrArg String.data hEq
  rw [String.data_append, String.data_append] at hd
  have h1 : "mfa_secret:".data =
      ['m', 'f', 'a', '_', 's', 'e', 'c', 'r', 'e', 't', ':'] := rfl
  have h2 : "mfa_setup:".data =
      ['m', 'f', 'a', '_', 's', 'e', 't', 'u', 'p', ':'] := rfl
  rw [h1, h2] at hd
  simp at hd

/-- C8: MFA validation returns false for every user, code and verification
oracle whenever no active secret is stored under `mfa_secret:` ++ user — and
TOTP enrollment stages its encrypted secret only under the separate
`mfa_setup:` ++ user key, so validation still fails in the store produced by
enrollment: enrolling alone never makes validation succeed. -/
theorem C8_enrollment_never_activates_validation (V : String → String → Bool)
    (D : String → Option String) (mfa : KvStore String) (rl : KvStore Nat)
    (log : EventLog) (now now2 : Nat) (eid : String) (ts : Nat)
    (uid uid2 token secret enc : String) (bc : List String)
    (h : kvGet mfa now ("mfa_secret:" ++ uid) = none) :
    validate_totp_token V D mfa now uid token = false ∧
    (validate_mfa_token V D rl mfa log now eid ts uid token MFAMethod.totp).1 = false ∧
    kvGet (setup_totp_mfa mfa now2 uid2 secret enc bc).1 now ("mfa_secret:" ++ uid) =
      none ∧
    (validate_mfa_token V D rl (setup_totp_mfa mfa now2 uid2 secret enc bc).1 log now
      eid ts uid token MFAMethod.totp).1 = false := by
  have hpass : kvGet (setup_totp_mfa mfa now2 uid2 secret enc bc).1 now
      ("mfa_secret:" ++ uid) = none := by
    show kvGet (kvSetex mfa now2 ("mfa_setup:" ++ uid2) 300 enc) now
      ("mfa_secret:" ++ uid) = none
    rw [kvGet_setex_ne _ _ _ _ _ _ _ (mfa_setup_key_ne_secret_key uid uid2)]
    exact h
  refine ⟨?_, ?_, hpass, ?_⟩
  · simp [validate_totp_token, h]
  · by_cases hc : check_rate_limit rl now ("mfa_attempts:" ++ uid) "mfa_attempt" = true
    · simp [validate_mfa_token, hc, validate_totp_token, h]
    · simp [validate_mfa_token, hc]
  · by_cases hc : check_rate_limit rl now ("mfa_attempts:" ++ uid) "mfa_attempt" = true
    · simp [validate_mfa_token, hc, validate_totp_token, hpass]
    · simp [validate_mfa_token, hc]

theorem C8_enrollment_never_activates_validation_witness :
    kvGet ([] : KvStore String) 0 ("mfa_secret:" ++ "u") = none ∧
    validate_totp_token (fun _ _ => true) (fun s => some s) [] 0 "u" "123456" = false ∧
    kvGet (setup_totp_mfa [] 0 "u" "sec" "enc" []).1 0 ("mfa_secret:" ++ "u") = none ∧
    (validate_mfa_token (fun _ _ => true) (fun s => some s) []
      (setup_totp_mfa [] 0 "u" "sec" "enc" []).1 EventLog.empty 0 "e" 0 "u" "123456"
      MFAMethod.totp).1 = false := by
  have h := C8_enrollment_never_activates_validation (fun _ _ => true) (fun s => some s)
    [] [] EventLog.empty 0 0 "e" 0 "u" "u" "123456" "sec" "enc" [] rfl
  exact ⟨rfl, h.1, h.2.2.1, h.2.2.2⟩

theorem floor_mul_le (k s : ℚ) (hk : 0 < k) (_hs : 0 ≤ s) :
    k * ((⌊s / k⌋ : ℤ) : ℚ) ≤ s := by
  have h1 : ((⌊s / k⌋ : ℤ) : ℚ) ≤ s / k := Int.floor_le _
  have h2 := mul_le_mul_of_nonneg_left h1 hk.le
  have h3 : k * (s / k) = s := by field_simp
  linarith

theorem le_mul_floor (k s : ℚ) (hk : 0 < k) (hs : k ≤ s) :
    k ≤ k * ((⌊s / k⌋ : ℤ) : ℚ) := by
  have h1 : (1 : ℚ) ≤ s / k := (one_le_div hk).mpr hs
  have h2 : (1 : ℤ) ≤ ⌊s / k⌋ := Int.le_floor.mpr (by exact_mod_cast h1)
  have h3 : (1 : ℚ) ≤ ((⌊s / k⌋ : ℤ) : ℚ) := by exact_mod_cast h2
  nlinarith

theorem floor_div_mono (k s1 s2 : ℚ) (hk : 0 < k) (h : s2 ≤ s1) :
    ((⌊s2 / k⌋ : ℤ) : ℚ) ≤ ((⌊s1 / k⌋ : ℤ) : ℚ) := by
  have hd : s2 / k ≤ s1 / k := by gcongr
  exact_mod_cast Int.floor_le_floor hd

theorem crack_bucket_seconds_mono (s1 s2 : ℚ) (hs2 : 0 ≤ s2) (h : s2 ≤ s1) :
    crack_bucket_seconds s2 ≤ crack_bucket_seconds s1 := by
  have hA1 := floor_mul_le 60 s2 (by norm_num) hs2
  have hA2 := floor_mul_le 3600 s2 (by norm_num) hs2
  have hA3 := floor_mul_le 86400 s2 (by norm_num) hs2
  have hA4 := floor_mul_le 31536000 s2 (by norm_num) hs2
  have hM1 := floor_div_mono 60 s1 s2 (by norm_num) h
  have hM2 := floor_div_mono 3600 s1 s2 (by norm_num) h
  have hM3 := floor_div_mono 86400 s1 s2 (by norm_num) h
  have hM4 := floor_div_mono 31536000 s1 s2 (by norm_num) h
  unfold crack_bucket_seconds
  split_ifs <;>
    first
      | linarith
      | linarith [le_mul_floor 60 s1 (by norm_num) (by linarith)]
      | linarith [le_mul_floor 3600 s1 (by norm_num) (by linarith)]
      | linarith [le_mul_floor 86400 s1 (by norm_num) (by linarith)]
      | linarith [le_mul_floor 31536000 s1 (by norm_num) (by linarith)]

theorem one_le_total_combinations (p : String) : 1 ≤ total_combinations p := by
  unfold total_combinations
  by_cases hp : 0 < password_charset_size p
  · rw [if_pos hp]
    exact Nat.one_le_pow _ _ hp
  · rw [if_neg hp]

theorem calculate_password_entropy_eq_logb (p : String) :
    calculate_password_entropy p = Real.logb 2 (total_combinations p) := by
  unfold calculate_password_entropy total_combinations
  by_cases hp : 0 < password_charset_size p
  · rw [if_pos hp, if_pos hp, Nat.cast_pow, Real.logb_pow]
  · rw [if_neg hp, if_neg hp, Nat.cast_one, Real.logb_one]

theorem total_combinations_le_of_entropy_le (p1 p2 : String)
    (h : calculate_password_entropy p2 ≤ calculate_password_entropy p1) :
    total_combinations p2 ≤ total_combinations p1 := by
  by_contra hlt
  push_neg at hlt
  have hpos : (0 : ℝ) < (total_combinations p1 : ℝ) := by
    exact_mod_cast Nat.lt_of_lt_of_le Nat.zero_lt_one (one_le_total_combinations p1)
  have hcast : (total_combinations p1 : ℝ) < (total_combinations p2 : ℝ) := by
    exact_mod_cast hlt
  have hlog := Real.logb_lt_logb (b := 2) (by norm_num) hpos hcast
  rw [← calculate_password_entropy_eq_logb, ← calculate_password_entropy_eq_logb] at hlog
  linarith

theorem seconds_to_crack_nonneg (p : String) : 0 ≤ seconds_to_crack p := by
  unfold seconds_to_crack
  positivity

theorem seconds_to_crack_mono (p1 p2 : String)
    (h : total_combinations p2 ≤ total_combinations p1) :
    seconds_to_crack p2 ≤ seconds_to_crack p1 := by
  have hc : (total_combinations p2 : ℚ) ≤ (total_combinations p1 : ℚ) := by
    exact_mod_cast h
  unfold seconds_to_crack
  gcongr

/-- C10: for every password the computed entropy is nonnegative, and the
crack-time estimate — read as the duration the formatted bucket string
denotes — is monotonically non-decreasing in entropy. -/
theorem C10_entropy_nonneg_crack_time_monotone :
    (∀ p : String, 0 ≤ calculate_password_entropy p) ∧
    (∀ p1 p2 : String,
      calculate_password_entropy p2 ≤ calculate_password_entropy p1 →
      crack_time_seconds p2 ≤ crack_time_seconds p1) := by
  constructor
  · intro p
    rw [calculate_password_entropy_eq_logb]
    refine Real.logb_nonneg (by norm_num) ?_
    exact_mod_cast one_le_total_combinations p
  · intro p1 p2 h
    unfold crack_time_seconds
    exact crack_bucket_seconds_mono _ _ (seconds_to_crack_nonneg p2)
      (seconds_to_crack_mono p1 p2 (total_combinations_le_of_entropy_le p1 p2 h))

theorem C10_entropy_nonneg_crack_time_monotone_witness :
    0 ≤ calculate_password_entropy "aB3!" ∧
    calculate_password_entropy "a" ≤ calculate_password_entropy "aa" ∧
    crack_time_seconds "a" ≤ crack_time_seconds "aa" := by
  have hl : (0 : ℝ) ≤ Real.logb 2 26 := Real.logb_nonneg (by norm_num) (by norm_num)
  have h : calculate_password_entropy "a" ≤ calculate_password_entropy "aa" := by
    unfold calculate_password_entropy
    rw [show password_charset_size "a" = 26 from rfl,
      show password_charset_size "aa" = 26 from rfl,
      show ("a" : String).length = 1 from rfl,
      show ("aa" : String).length = 2 from rfl,
      if_pos (by norm_num : (0 : Nat) < 26), if_pos (by norm_num : (0 : Nat) < 26)]
    push_cast
    linarith
  exact ⟨C10_entropy_nonneg_crack_time_monotone.1 "aB3!", h,
    C10_entropy_nonneg_crack_time_monotone.2 "aa" "a" h⟩
